import Mathlib

/-!
Verification of the Obsidian local-time-notifier reminder scheduler.

Shallow embedding of `src/main.ts` (class `LocalTimeNotifier` plus the cancel
button of `TimeNotifierSettingTab`): the single-slot reminder scheduler that
computes a millisecond delay, arms one deferred trigger, fires it once, and
persists/restores the one pending record through `localStorage`.

Modelling conventions for the JavaScript platform primitives used by the code:

* A JS `Date` is its time value in milliseconds: `some t` for a valid date,
  `none` for an Invalid Date (whose time value is `NaN`).
* JS numeric comparison with `NaN` is always false; `jsLe` and `jsGt` embed the
  two comparisons the source performs (`delay <= 0` and `dateTime > now`).
* `setTimeout` clamps a `NaN` or negative delay to `0`; `timeoutFireTime` gives
  the absolute time at which the armed callback becomes due.
* An ISO-8601 date string is modelled structurally by `DateStr`: `iso t` is the
  rendering of the valid time value `t` (serialisation is injective and
  round-trips through `new Date(...)`), and `notATime raw` is any string that
  does not parse as a date (`new Date` yields an Invalid Date on it).
* The `localStorage` slot under the key `obsidian-time-notifier` holds either
  nothing, a JSON text that fails to parse (`StoredValue.malformed`, on which
  `JSON.parse` throws), or the parsed record with its three fields.
* A `NodeJS.Timeout` handle is `ArmedTimer`: the absolute due time, the message
  the callback closes over, whether the callback also removes the stored record
  (true exactly for the timer armed by `restoreScheduledNotifications`), and
  whether it has already fired (`clearTimeout` on a fired handle is a no-op,
  and the `timer` field is not nulled by the callbacks).
-/

namespace TimeNotifier

/-- A JS `Date` value: `some t` is a valid date with time value `t`
(milliseconds since the epoch), `none` is an Invalid Date (`NaN`). -/
abbrev JSDate := Option Int

/-- JS `x <= c` where `x` may be `NaN`: comparison with `NaN` is false.
Embeds the guard `delay <= 0` of `scheduleNotification` (main.ts line 95). -/
def jsLe : JSDate → Int → Bool
  | none, _ => false
  | some d, c => decide (d ≤ c)

/-- JS `x > c` where `x` may be `NaN`: comparison with `NaN` is false.
Embeds the test `dateTime > now` of `restoreScheduledNotifications`
(main.ts line 171). -/
def jsGt : JSDate → Int → Bool
  | none, _ => false
  | some t, c => decide (c < t)

/-- Absolute due time of a callback armed by `setTimeout(cb, delay)` at time
`now`: a `NaN` (`none`) or negative delay is clamped to `0`. -/
def timeoutFireTime (now : Int) (delay : JSDate) : Int :=
  now + max (delay.getD 0) 0

/-- Model of a date string: `iso t` is `toISOString()` of the valid time value
`t`; `notATime raw` is a string on which `new Date(...)` yields an Invalid
Date. -/
inductive DateStr
  | iso (t : Int)
  | notATime (raw : String)
deriving DecidableEq

/-- `new Date(s).getTime()` for a date string `s`: an ISO rendering parses back
to its time value, anything else gives an Invalid Date (main.ts line 168). -/
def parseDate : DateStr → JSDate
  | .iso t => some t
  | .notATime _ => none

/-- Content of the `localStorage` slot `obsidian-time-notifier`:
either a text on which `JSON.parse` throws, or the parsed record
`{dateTime, message, scheduledAt}` written by `saveToLocalStorage`
(main.ts lines 153-160). -/
inductive StoredValue
  | malformed
  | record (dateTime : DateStr) (message : String) (scheduledAt : DateStr)
deriving DecidableEq

/-- A `NodeJS.Timeout` handle together with what its callback closes over:
`fireTime` is the absolute due time, `message` the text to show,
`clearsStorage` whether the callback also removes the stored record (true
exactly for the restore-armed callback, main.ts line 178), `fired` whether the
one-shot callback has already run. -/
structure ArmedTimer where
  fireTime : Int
  message : String
  clearsStorage : Bool
  fired : Bool
deriving DecidableEq

/-- The mutable state of the plugin relevant to scheduling: the fields
`timer` and `nextNotificationTime` of `LocalTimeNotifier` (main.ts lines
17-18), the `localStorage` slot, and the trace of messages shown by
`showNotification` (to state which reminder actually fires). -/
structure SchedulerState where
  timer : Option ArmedTimer
  nextNotificationTime : Option JSDate
  storage : Option StoredValue
  notified : List String
deriving DecidableEq

/-- Result of a `scheduleNotification` call: early return with the
past-time `Notice` (line 96), normal completion (line 117), or the
`RangeError` thrown by `toISOString()` on an Invalid Date inside
`saveToLocalStorage` (line 155). -/
inductive SchedOutcome
  | rejectedPastTime
  | ok
  | threwRangeError
deriving DecidableEq

/-- Timer operations performed by a call, in order: `cleared tm` is
`clearTimeout` on the handle `tm` (line 105), `armed tm` is `setTimeout`
arming `tm` (line 109). -/
inductive TimerOp
  | cleared (tm : ArmedTimer)
  | armed (tm : ArmedTimer)
deriving DecidableEq

/-- Which branch `restoreScheduledNotifications` took: nothing stored
(line 165 false), re-armed a trigger (lines 171-181), erased a stale record
(line 183), or caught a `JSON.parse` failure (lines 185-187). -/
inductive RestoreOutcome
  | nothingStored
  | rearmed
  | erasedStale
  | caughtCorrupt
deriving DecidableEq

/-- `scheduleNotification(dateTime, message)` (main.ts lines 91-118), called at
time `now`. Follows the source line by line: compute
`delay = dateTime.getTime() - now.getTime()` (`NaN` when `dateTime` is
invalid); if `delay <= 0` show the past-time notice and return; otherwise set
`nextNotificationTime`, `clearTimeout` any previous timer, arm a new timer for
`delay` (whose callback shows the message and nulls `nextNotificationTime` but
does not touch `localStorage`), then `saveToLocalStorage` — which throws a
`RangeError` before writing when `dateTime.toISOString()` is called on an
Invalid Date, and otherwise overwrites the slot with
`{dateTime, message, scheduledAt: now}`. Returns the outcome, the timer
operations in the order performed, and the state after the call. -/
def scheduleNotification (s : SchedulerState) (now : Int) (dateTime : JSDate)
    (message : String) : SchedOutcome × List TimerOp × SchedulerState :=
  let delay : JSDate := dateTime.map (fun t => t - now)
  if jsLe delay 0 then
    (.rejectedPastTime, [], s)
  else
    let s1 := { s with nextNotificationTime := some dateTime }
    let clearOps : List TimerOp :=
      match s1.timer with
      | some old => [.cleared old]
      | none => []
    let newTimer : ArmedTimer :=
      { fireTime := timeoutFireTime now delay, message := message,
        clearsStorage := false, fired := false }
    let s2 := { s1 with timer := some newTimer }
    let ops := clearOps ++ [.armed newTimer]
    match dateTime with
    | none => (.threwRangeError, ops, s2)
    | some t =>
        (.ok, ops,
          { s2 with storage := some (.record (.iso t) message (.iso now)) })

/-- The armed callback runs (once): `showNotification(message)` appends to the
notified trace, `nextNotificationTime` is nulled, and — only for the
restore-armed callback — the stored record is removed (main.ts lines 109-112
and 175-179). The `timer` field keeps the now-fired handle: neither callback
nulls it. -/
def fireTimer (s : SchedulerState) : SchedulerState :=
  match s.timer with
  | none => s
  | some tm =>
      { s with
        timer := some { tm with fired := true },
        nextNotificationTime := none,
        notified := s.notified ++ [tm.message],
        storage := if tm.clearsStorage then none else s.storage }

/-- The cancel button of the settings tab (main.ts lines 342-351): if the
`timer` field is non-null, `clearTimeout` it, null it, null
`nextNotificationTime` and remove the stored record; otherwise do nothing. -/
def cancelAll (s : SchedulerState) : SchedulerState :=
  match s.timer with
  | some _ =>
      { s with timer := none, nextNotificationTime := none, storage := none }
  | none => s

/-- `restoreScheduledNotifications()` (main.ts lines 163-189), run at time
`now`: read the slot; if absent do nothing; if `JSON.parse` throws, catch and
log (the slot is left in place); otherwise build `dateTime` from the stored
string and test `dateTime > now` — true only for a valid date strictly in the
future (comparison with the `NaN` of an Invalid Date is false), in which case a
timer for the remaining delay is armed whose callback additionally removes the
slot; in every other case the slot is removed as stale. -/
def restoreScheduledNotifications (s : SchedulerState) (now : Int) :
    RestoreOutcome × SchedulerState :=
  match s.storage with
  | none => (.nothingStored, s)
  | some .malformed => (.caughtCorrupt, s)
  | some (.record d m _sa) =>
      match parseDate d, jsGt (parseDate d) now with
      | some t, true =>
          let delay := t - now
          (.rearmed,
            { s with
              nextNotificationTime := some (some t),
              timer := some
                { fireTime := timeoutFireTime now (some delay), message := m,
                  clearsStorage := true, fired := false } })
      | _, _ => (.erasedStale, { s with storage := none })

/-- `getNextNotificationInfo` (main.ts lines 192-197): reports whether a
reminder is pending; a pure read. -/
def getNextNotificationInfo (s : SchedulerState) : Bool :=
  s.nextNotificationTime.isSome

/-- In-memory state of a freshly started process: the plugin fields start
null (main.ts lines 17-18), only `localStorage` survives the restart. -/
def freshProcess (s : SchedulerState) : SchedulerState :=
  { timer := none, nextNotificationTime := none, storage := s.storage,
    notified := [] }

/-- A point in an execution: the current time and the scheduler state. -/
structure World where
  now : Int
  st : SchedulerState
deriving DecidableEq

/-- The events that mutate the scheduler state, each happening at some time
`t` no earlier than the current one: a `scheduleNotification` call, the armed
timer's callback running (only once its due time has passed and only if it has
not fired yet), the settings-tab cancel button, and a process restart followed
by the `onload`-time `restoreScheduledNotifications`. -/
inductive Step : World → World → Prop
  | sched (w : World) (t : Int) (dateTime : JSDate) (message : String)
      (h : w.now ≤ t) :
      Step w ⟨t, (scheduleNotification w.st t dateTime message).2.2⟩
  | fire (w : World) (t : Int) (tm : ArmedTimer) (h : w.now ≤ t)
      (harm : w.st.timer = some tm) (hdue : tm.fireTime ≤ t)
      (hnotfired : tm.fired = false) :
      Step w ⟨t, fireTimer w.st⟩
  | cancelBtn (w : World) (t : Int) (h : w.now ≤ t) :
      Step w ⟨t, cancelAll w.st⟩
  | restart (w : World) (t : Int) (h : w.now ≤ t) :
      Step w ⟨t, (restoreScheduledNotifications (freshProcess w.st) t).2⟩

/-- The state a process starts from before anything was ever scheduled:
no timer, nothing pending, empty `localStorage` slot. -/
def initialWorld (t0 : Int) : World :=
  ⟨t0, { timer := none, nextNotificationTime := none, storage := none,
         notified := [] }⟩

/-- Worlds reachable from an initial world through the scheduler's own
operations (including process restarts). -/
inductive Reachable : World → Prop
  | init (t0 : Int) : Reachable (initialWorld t0)
  | step {w w' : World} : Reachable w → Step w w' → Reachable w'

@[simp]
theorem jsLe_none (c : Int) : jsLe none c = false := rfl

@[simp]
theorem jsLe_some (d c : Int) : jsLe (some d) c = decide (d ≤ c) := rfl

@[simp]
theorem jsGt_none (c : Int) : jsGt none c = false := rfl

@[simp]
theorem jsGt_some (t c : Int) : jsGt (some t) c = decide (c < t) := rfl

@[simp]
theorem parseDate_iso (t : Int) : parseDate (.iso t) = some t := rfl

@[simp]
theorem parseDate_notATime (r : String) : parseDate (.notATime r) = none := rfl

@[simp]
theorem timeoutFireTime_pos (now d : Int) (h : 0 ≤ d) :
    timeoutFireTime now (some d) = now + d := by
  simp [timeoutFireTime, max_eq_left h]

@[simp]
theorem timeoutFireTime_none (now : Int) : timeoutFireTime now none = now := by
  simp [timeoutFireTime]

/-- Unfolding of a successful `scheduleNotification` call on a valid future
time: the guard is passed and the full effect happens. -/
theorem scheduleNotification_future (s : SchedulerState) (now fireAt : Int)
    (msg : String) (h : now < fireAt) :
    scheduleNotification s now (some fireAt) msg =
      (.ok,
       (match s.timer with
        | some old => [TimerOp.cleared old]
        | none => []) ++
         [.armed { fireTime := fireAt, message := msg, clearsStorage := false,
                   fired := false }],
       { s with
         nextNotificationTime := some (some fireAt),
         timer := some
           { fireTime := fireAt, message := msg, clearsStorage := false,
             fired := false },
         storage := some (.record (.iso fireAt) msg (.iso now)) }) := by
  have hle : jsLe (some (fireAt - now)) 0 = false := by
    simp only [jsLe_some, decide_eq_false_iff_not, not_le]
    omega
  have hft : timeoutFireTime now (some (fireAt - now)) = fireAt := by
    rw [timeoutFireTime_pos now (fireAt - now) (by omega)]; omega
  simp only [scheduleNotification, Option.map_some', hle, Bool.false_eq_true,
    if_false, hft]

/-- Claim C1: for every target time `fireAt` strictly after the current time
and every message, `schedule(fireAt, msg)` succeeds: the pending record is set
to `fireAt`, one deferred trigger is armed whose due time is
`now + (fireAt - now) = fireAt`, and the persisted record is overwritten with
`dateTime = fireAt` (ISO-8601), `message = msg`, `scheduledAt = now`. -/
theorem schedule_future_ok (s : SchedulerState) (now fireAt : Int)
    (msg : String) (h : now < fireAt) :
    (scheduleNotification s now (some fireAt) msg).1 = .ok ∧
    (scheduleNotification s now (some fireAt) msg).2.2 =
      { s with
        nextNotificationTime := some (some fireAt),
        timer := some
          { fireTime := fireAt, message := msg, clearsStorage := false,
            fired := false },
        storage := some (.record (.iso fireAt) msg (.iso now)) } := by
  rw [scheduleNotification_future s now fireAt msg h]
  exact ⟨rfl, rfl⟩

/-- Witness for C1 at `now = 0`, `fireAt = 5`, message `"hello"`. -/
theorem schedule_future_ok_witness :
    (0 : Int) < 5 ∧
    ((scheduleNotification ⟨none, none, none, []⟩ 0 (some 5) "hello").1 = .ok ∧
     (scheduleNotification ⟨none, none, none, []⟩ 0 (some 5) "hello").2.2 =
       { (⟨none, none, none, []⟩ : SchedulerState) with
         nextNotificationTime := some (some 5),
         timer := some
           { fireTime := 5, message := "hello", clearsStorage := false,
             fired := false },
         storage := some (.record (.iso 5) "hello" (.iso 0)) }) :=
  ⟨by decide, schedule_future_ok ⟨none, none, none, []⟩ 0 5 "hello" (by decide)⟩

/-- Claim C2: for every target time `fireAt` at or before the current time,
`schedule(fireAt, msg)` fails with the past-time notice (`rejectedPastTime`
models the visible `Notice` of line 96) and mutates nothing: no timer
operation is performed and the state — pending record, armed trigger and
persisted record — is returned exactly as it was. -/
theorem schedule_past_rejected (s : SchedulerState) (now fireAt : Int)
    (msg : String) (h : fireAt ≤ now) :
    scheduleNotification s now (some fireAt) msg =
      (.rejectedPastTime, [], s) := by
  have hle : jsLe (some (fireAt - now)) 0 = true := by
    simp only [jsLe_some, decide_eq_true_eq]
    omega
  simp [scheduleNotification, hle]

/-- Witness for C2 at `now = 10`, `fireAt = 10` (the boundary case), on an
armed state: the call returns the state untouched. -/
theorem schedule_past_rejected_witness :
    (10 : Int) ≤ 10 ∧
    scheduleNotification
        ⟨some { fireTime := 12, message := "old", clearsStorage := false,
                fired := false },
         some (some 12), some (.record (.iso 12) "old" (.iso 1)), []⟩
        10 (some 10) "new" =
      (.rejectedPastTime, [],
       ⟨some { fireTime := 12, message := "old", clearsStorage := false,
               fired := false },
        some (some 12), some (.record (.iso 12) "old" (.iso 1)), []⟩) :=
  ⟨by decide,
   schedule_past_rejected
     ⟨some { fireTime := 12, message := "old", clearsStorage := false,
             fired := false },
      some (some 12), some (.record (.iso 12) "old" (.iso 1)), []⟩
     10 10 "new" (by decide)⟩

/-- Counterexample to claim C3 as stated: with an Invalid Date (the
"not-a-time" produced by malformed user text) the delay is `NaN`, and the
JS guard `delay <= 0` is FALSE on `NaN`, so at `now = 0` the request is not
rejected as past time and the state does not stay unchanged. -/
theorem schedule_invalid_cex :
    ¬((scheduleNotification ⟨none, none, none, []⟩ 0 none "m").1 =
        .rejectedPastTime ∧
      (scheduleNotification ⟨none, none, none, []⟩ 0 none "m").2.2 =
        ⟨none, none, none, []⟩) := by
  decide

/-- Claim C3 amended: for every Invalid Date passed to `schedule`, the delay
computation yields `NaN`, the guard `delay <= 0` is false on `NaN`, so the
request is NOT treated as a past-time error: `schedule` sets the in-memory
pending record to the invalid date, clears any prior trigger and arms a new
one with clamped-to-zero delay (due immediately), and then throws a
`RangeError` from `toISOString()` before the persisted record is written —
the persisted record alone is left unchanged. -/
theorem schedule_invalid_throws (s : SchedulerState) (now : Int)
    (msg : String) :
    scheduleNotification s now none msg =
      (.threwRangeError,
       (match s.timer with
        | some old => [TimerOp.cleared old]
        | none => []) ++
         [.armed { fireTime := now, message := msg, clearsStorage := false,
                   fired := false }],
       { s with
         nextNotificationTime := some none,
         timer := some
           { fireTime := now, message := msg, clearsStorage := false,
             fired := false } }) := by
  simp [scheduleNotification]

/-- Restore with an empty slot is a no-op. -/
theorem restore_none (s : SchedulerState) (now : Int) (h : s.storage = none) :
    restoreScheduledNotifications s now = (.nothingStored, s) := by
  simp [restoreScheduledNotifications, h]

/-- Restore with an unparseable slot content: the failure is caught, the state
is left as it was (the slot included). -/
theorem restore_malformed (s : SchedulerState) (now : Int)
    (h : s.storage = some .malformed) :
    restoreScheduledNotifications s now = (.caughtCorrupt, s) := by
  simp [restoreScheduledNotifications, h]

/-- Restore with a parsed record whose date is valid and strictly in the
future: a trigger for the remaining delay is re-armed, its callback marked to
also erase the slot, and the pending record is repopulated. -/
theorem restore_record_future (s : SchedulerState) (now : Int) (d : DateStr)
    (m : String) (sa : DateStr) (t : Int)
    (hst : s.storage = some (.record d m sa)) (hp : parseDate d = some t)
    (h : now < t) :
    restoreScheduledNotifications s now =
      (.rearmed,
       { s with
         nextNotificationTime := some (some t),
         timer := some
           { fireTime := t, message := m, clearsStorage := true,
             fired := false } }) := by
  have hft : timeoutFireTime now (some (t - now)) = t := by
    rw [timeoutFireTime_pos now (t - now) (by omega)]; omega
  simp only [restoreScheduledNotifications, hst, hp, jsGt_some,
    decide_eq_true h, hft]

/-- Restore with a parsed record whose date is valid but not in the future:
the slot is erased as stale and nothing else changes. -/
theorem restore_record_stale (s : SchedulerState) (now : Int) (d : DateStr)
    (m : String) (sa : DateStr) (t : Int)
    (hst : s.storage = some (.record d m sa)) (hp : parseDate d = some t)
    (h : t ≤ now) :
    restoreScheduledNotifications s now =
      (.erasedStale, { s with storage := none }) := by
  have hd : decide (now < t) = false := decide_eq_false (by omega)
  simp only [restoreScheduledNotifications, hst, hp, jsGt_some, hd]

/-- Restore with a parsed record whose date string does not parse: the
comparison against `now` is false, so the slot is erased as stale. -/
theorem restore_record_invalid (s : SchedulerState) (now : Int) (d : DateStr)
    (m : String) (sa : DateStr)
    (hst : s.storage = some (.record d m sa)) (hp : parseDate d = none) :
    restoreScheduledNotifications s now =
      (.erasedStale, { s with storage := none }) := by
  simp only [restoreScheduledNotifications, hst, hp, jsGt_none]

/-- Claim C5: the case analysis of `restore()`. (a) With nothing persisted it
is a no-op. (b) With a persisted record whose `fireAt` is valid and not in the
future, the slot is erased and nothing else changes (the scheduler, whose
fields are null at startup, stays Idle). (c) With a persisted record whose
`fireAt` is valid and in the future, a trigger is re-armed whose due time is
`now + (fireAt - now) = fireAt`, the pending record is repopulated, and when
that restored trigger fires it additionally erases the persisted slot. -/
theorem restore_case_trichotomy :
    (∀ (s : SchedulerState) (now : Int), s.storage = none →
      restoreScheduledNotifications s now = (.nothingStored, s)) ∧
    (∀ (s : SchedulerState) (now : Int) (d : DateStr) (m : String)
        (sa : DateStr) (t : Int), s.storage = some (.record d m sa) →
      parseDate d = some t → t ≤ now →
      restoreScheduledNotifications s now =
        (.erasedStale, { s with storage := none })) ∧
    (∀ (s : SchedulerState) (now : Int) (d : DateStr) (m : String)
        (sa : DateStr) (t : Int), s.storage = some (.record d m sa) →
      parseDate d = some t → now < t →
      restoreScheduledNotifications s now =
        (.rearmed,
         { s with
           nextNotificationTime := some (some t),
           timer := some
             { fireTime := t, message := m, clearsStorage := true,
               fired := false } }) ∧
      (fireTimer (restoreScheduledNotifications s now).2).storage = none ∧
      (fireTimer (restoreScheduledNotifications s now).2).nextNotificationTime
        = none) := by
  refine ⟨restore_none, restore_record_stale, ?_⟩
  intro s now d m sa t hst hp h
  have hre := restore_record_future s now d m sa t hst hp h
  refine ⟨hre, ?_, ?_⟩ <;> rw [hre] <;> simp [fireTimer]

/-- Witness for C5: the empty slot at `now = 0`; a stale record with
`fireAt = 3` read at `now = 7`; a future record with `fireAt = 9` read at
`now = 7`, whose restored trigger erases the slot when it fires. -/
theorem restore_case_trichotomy_witness :
    ((⟨none, none, none, []⟩ : SchedulerState).storage = none ∧
     restoreScheduledNotifications ⟨none, none, none, []⟩ 0 =
       (.nothingStored, ⟨none, none, none, []⟩)) ∧
    (restoreScheduledNotifications
        ⟨none, none, some (.record (.iso 3) "a" (.iso 1)), []⟩ 7 =
      (.erasedStale,
       { (⟨none, none, some (.record (.iso 3) "a" (.iso 1)), []⟩ :
          SchedulerState) with storage := none })) ∧
    (restoreScheduledNotifications
        ⟨none, none, some (.record (.iso 9) "b" (.iso 1)), []⟩ 7 =
      (.rearmed,
       { (⟨none, none, some (.record (.iso 9) "b" (.iso 1)), []⟩ :
          SchedulerState) with
         nextNotificationTime := some (some 9),
         timer := some
           { fireTime := 9, message := "b", clearsStorage := true,
             fired := false } }) ∧
     (fireTimer (restoreScheduledNotifications
        ⟨none, none, some (.record (.iso 9) "b" (.iso 1)), []⟩ 7).2).storage
       = none ∧
     (fireTimer (restoreScheduledNotifications
        ⟨none, none, some (.record (.iso 9) "b" (.iso 1)), []⟩
        7).2).nextNotificationTime = none) :=
  ⟨⟨rfl, restore_case_trichotomy.1 ⟨none, none, none, []⟩ 0 rfl⟩,
   restore_case_trichotomy.2.1
     ⟨none, none, some (.record (.iso 3) "a" (.iso 1)), []⟩ 7
     (.iso 3) "a" (.iso 1) 3 rfl rfl (by decide),
   restore_case_trichotomy.2.2
     ⟨none, none, some (.record (.iso 9) "b" (.iso 1)), []⟩ 7
     (.iso 9) "b" (.iso 1) 9 rfl rfl (by decide)⟩

/-- Claim C8: a persisted value on which `JSON.parse` throws is caught and
logged by `restore()` and treated as absent: the scheduler's in-memory fields
are untouched (in particular at startup they stay null/Idle), no trigger is
armed, and no exception escapes — the model's `restore` returns normally with
the `caughtCorrupt` outcome and the state exactly as it was. -/
theorem restore_malformed_caught (s : SchedulerState) (now : Int)
    (h : s.storage = some .malformed) :
    restoreScheduledNotifications s now = (.caughtCorrupt, s) :=
  restore_malformed s now h

/-- Witness for C8: a fresh startup state with a malformed slot. -/
theorem restore_malformed_caught_witness :
    (⟨none, none, some .malformed, []⟩ : SchedulerState).storage =
      some .malformed ∧
    restoreScheduledNotifications ⟨none, none, some .malformed, []⟩ 4 =
      (.caughtCorrupt, ⟨none, none, some .malformed, []⟩) :=
  ⟨rfl, restore_malformed_caught ⟨none, none, some .malformed, []⟩ 4 rfl⟩

/-- Claim C10: a persisted value that parses as JSON but whose `dateTime`
field is not a valid date string yields an Invalid Date; its comparison with
the current time is false, so `restore()` takes the stale branch: the slot is
erased, the timer field is untouched (no trigger armed, the scheduler stays
Idle at startup), and no error is raised. -/
theorem restore_notATime_erased (s : SchedulerState) (now : Int) (r : String)
    (m : String) (sa : DateStr)
    (h : s.storage = some (.record (.notATime r) m sa)) :
    jsGt (parseDate (.notATime r)) now = false ∧
    restoreScheduledNotifications s now =
      (.erasedStale, { s with storage := none }) ∧
    (restoreScheduledNotifications s now).2.timer = s.timer :=
  ⟨rfl,
   restore_record_invalid s now (.notATime r) m sa h rfl,
   by rw [restore_record_invalid s now (.notATime r) m sa h rfl]⟩

/-- Witness for C10: a fresh startup state whose slot holds the unparseable
date text "not-a-date". -/
theorem restore_notATime_erased_witness :
    (⟨none, none, some (.record (.notATime "not-a-date") "x" (.iso 1)), []⟩ :
      SchedulerState).storage =
        some (.record (.notATime "not-a-date") "x" (.iso 1)) ∧
    (jsGt (parseDate (.notATime "not-a-date")) 6 = false ∧
     restoreScheduledNotifications
        ⟨none, none, some (.record (.notATime "not-a-date") "x" (.iso 1)), []⟩
        6 =
      (.erasedStale,
       { (⟨none, none,
           some (.record (.notATime "not-a-date") "x" (.iso 1)), []⟩ :
          SchedulerState) with storage := none }) ∧
     (restoreScheduledNotifications
        ⟨none, none, some (.record (.notATime "not-a-date") "x" (.iso 1)), []⟩
        6).2.timer =
       (⟨none, none,
         some (.record (.notATime "not-a-date") "x" (.iso 1)), []⟩ :
        SchedulerState).timer) :=
  ⟨rfl,
   restore_notATime_erased
     ⟨none, none, some (.record (.notATime "not-a-date") "x" (.iso 1)), []⟩
     6 "not-a-date" "x" (.iso 1) rfl⟩

/-- Claim C7: the fire-completion path clears the in-memory pending record on
every fire, but clears the persisted record only when the trigger was armed by
`restore()` (whose callback carries `clearsStorage`); a trigger armed directly
by `schedule()` carries `clearsStorage = false`, so its firing leaves the
persisted record exactly as `schedule` wrote it, the timer handle changing
only in its fired flag. -/
theorem fire_asymmetric_cleanup :
    (∀ (s : SchedulerState) (tm : ArmedTimer), s.timer = some tm →
      (fireTimer s).nextNotificationTime = none) ∧
    (∀ (s : SchedulerState) (now fireAt : Int) (msg : String), now < fireAt →
      (fireTimer (scheduleNotification s now (some fireAt) msg).2.2).storage =
        (scheduleNotification s now (some fireAt) msg).2.2.storage ∧
      (scheduleNotification s now (some fireAt) msg).2.2.storage =
        some (.record (.iso fireAt) msg (.iso now)) ∧
      (fireTimer (scheduleNotification s now (some fireAt) msg).2.2).timer =
        some
          { fireTime := fireAt, message := msg, clearsStorage := false,
            fired := true }) ∧
    (∀ (s : SchedulerState) (now : Int) (d : DateStr) (m : String)
        (sa : DateStr) (t : Int), s.storage = some (.record d m sa) →
      parseDate d = some t → now < t →
      (fireTimer (restoreScheduledNotifications s now).2).storage = none) := by
  refine ⟨?_, ?_, ?_⟩
  · intro s tm htm
    simp [fireTimer, htm]
  · intro s now fireAt msg h
    rw [scheduleNotification_future s now fireAt msg h]
    simp [fireTimer]
  · intro s now d m sa t hst hp h
    rw [restore_record_future s now d m sa t hst hp h]
    simp [fireTimer]

/-- Witness for C7: an armed state whose trigger fires; a schedule-armed
trigger at `now = 0`, `fireAt = 5` whose firing leaves the record behind; a
restore-armed trigger (record with `fireAt = 9` read at `now = 7`) whose
firing erases the slot. -/
theorem fire_asymmetric_cleanup_witness :
    ((⟨some { fireTime := 2, message := "w", clearsStorage := false,
              fired := false }, some (some 2), none, []⟩ :
        SchedulerState).timer =
       some { fireTime := 2, message := "w", clearsStorage := false,
              fired := false } ∧
     (fireTimer
        ⟨some { fireTime := 2, message := "w", clearsStorage := false,
                fired := false }, some (some 2), none,
         []⟩).nextNotificationTime = none) ∧
    ((fireTimer
        (scheduleNotification ⟨none, none, none, []⟩ 0 (some 5)
          "hi").2.2).storage =
       (scheduleNotification ⟨none, none, none, []⟩ 0 (some 5)
         "hi").2.2.storage ∧
     (scheduleNotification ⟨none, none, none, []⟩ 0 (some 5)
       "hi").2.2.storage = some (.record (.iso 5) "hi" (.iso 0)) ∧
     (fireTimer
        (scheduleNotification ⟨none, none, none, []⟩ 0 (some 5)
          "hi").2.2).timer =
       some { fireTime := 5, message := "hi", clearsStorage := false,
              fired := true }) ∧
    (fireTimer
       (restoreScheduledNotifications
         ⟨none, none, some (.record (.iso 9) "c" (.iso 1)), []⟩
         7).2).storage = none :=
  ⟨⟨rfl,
    fire_asymmetric_cleanup.1
      ⟨some { fireTime := 2, message := "w", clearsStorage := false,
              fired := false }, some (some 2), none, []⟩
      { fireTime := 2, message := "w", clearsStorage := false,
        fired := false } rfl⟩,
   fire_asymmetric_cleanup.2.1 ⟨none, none, none, []⟩ 0 5 "hi" (by decide),
   fire_asymmetric_cleanup.2.2
     ⟨none, none, some (.record (.iso 9) "c" (.iso 1)), []⟩ 7
     (.iso 9) "c" (.iso 1) 9 rfl rfl (by decide)⟩

/-- Claim C4: a successful `schedule` call leaves exactly one deferred
trigger armed — the single timer slot holds the trigger for this call's
`fireAt` and message — and when a trigger was previously armed, the call's
timer operations are, in order, `clearTimeout` of the old trigger and then
the arming of the new one, so the earlier request's target time never fires:
the subsequent fire shows exactly this call's message. -/
theorem schedule_single_armed_trigger :
    (∀ (s : SchedulerState) (now fireAt : Int) (msg : String), now < fireAt →
      (scheduleNotification s now (some fireAt) msg).2.2.timer =
        some
          { fireTime := fireAt, message := msg, clearsStorage := false,
            fired := false }) ∧
    (∀ (s : SchedulerState) (old : ArmedTimer) (now fireAt : Int)
        (msg : String), s.timer = some old → now < fireAt →
      (scheduleNotification s now (some fireAt) msg).2.1 =
        [.cleared old,
         .armed { fireTime := fireAt, message := msg, clearsStorage := false,
                  fired := false }]) ∧
    (∀ (s : SchedulerState) (now fireAt : Int) (msg : String), now < fireAt →
      (fireTimer (scheduleNotification s now (some fireAt) msg).2.2).notified
        = s.notified ++ [msg]) := by
  refine ⟨?_, ?_, ?_⟩
  · intro s now fireAt msg h
    rw [scheduleNotification_future s now fireAt msg h]
  · intro s old now fireAt msg hold h
    rw [scheduleNotification_future s now fireAt msg h]
    simp [hold]
  · intro s now fireAt msg h
    rw [scheduleNotification_future s now fireAt msg h]
    simp [fireTimer]

/-- Witness for C4: two schedules in succession at `now = 0`: first for
`fireAt = 5` with message "first", then for `fireAt = 8` with message
"second"; the second call clears the first trigger before arming its own, and
the fire that follows shows "second". -/
theorem schedule_single_armed_trigger_witness :
    ((scheduleNotification
        (scheduleNotification ⟨none, none, none, []⟩ 0 (some 5)
          "first").2.2 0 (some 8) "second").2.2.timer =
       some { fireTime := 8, message := "second", clearsStorage := false,
              fired := false }) ∧
    ((scheduleNotification
        (scheduleNotification ⟨none, none, none, []⟩ 0 (some 5)
          "first").2.2 0 (some 8) "second").2.1 =
       [.cleared { fireTime := 5, message := "first", clearsStorage := false,
                   fired := false },
        .armed { fireTime := 8, message := "second", clearsStorage := false,
                 fired := false }]) ∧
    ((fireTimer
        (scheduleNotification
          (scheduleNotification ⟨none, none, none, []⟩ 0 (some 5)
            "first").2.2 0 (some 8) "second").2.2).notified =
       (scheduleNotification ⟨none, none, none, []⟩ 0 (some 5)
         "first").2.2.notified ++ ["second"]) :=
  ⟨schedule_single_armed_trigger.1
     (scheduleNotification ⟨none, none, none, []⟩ 0 (some 5) "first").2.2
     0 8 "second" (by decide),
   schedule_single_armed_trigger.2.1
     (scheduleNotification ⟨none, none, none, []⟩ 0 (some 5) "first").2.2
     { fireTime := 5, message := "first", clearsStorage := false,
       fired := false }
     0 8 "second" (by decide) (by decide),
   schedule_single_armed_trigger.2.2
     (scheduleNotification ⟨none, none, none, []⟩ 0 (some 5) "first").2.2
     0 8 "second" (by decide)⟩

/-- The invariant the scheduler's own operations maintain: when the timer
field is null the `localStorage` slot is empty, and the slot never holds a
text the plugin itself wrote that fails to parse (the plugin only ever writes
well-formed records). -/
def GoodState (s : SchedulerState) : Prop :=
  (s.timer = none → s.storage = none) ∧ s.storage ≠ some .malformed

theorem goodState_initial : GoodState ⟨none, none, none, []⟩ := by
  constructor <;> simp

theorem goodState_sched (s : SchedulerState) (hs : GoodState s) (now : Int)
    (dt : JSDate) (msg : String) :
    GoodState (scheduleNotification s now dt msg).2.2 := by
  cases dt with
  | none =>
      simpa [scheduleNotification, GoodState] using hs.2
  | some t =>
      by_cases h : t - now ≤ 0
      · simpa [scheduleNotification, jsLe, h] using hs
      · simp [scheduleNotification, jsLe, h, GoodState]

theorem goodState_fire (s : SchedulerState) (hs : GoodState s) :
    GoodState (fireTimer s) := by
  unfold fireTimer
  cases htm : s.timer with
  | none => exact hs
  | some tm =>
      refine ⟨by simp, ?_⟩
      by_cases hc : tm.clearsStorage <;> simp [hc, hs.2]

theorem goodState_cancel (s : SchedulerState) (hs : GoodState s) :
    GoodState (cancelAll s) := by
  unfold cancelAll
  cases htm : s.timer with
  | none => exact hs
  | some tm => exact ⟨fun _ => rfl, by simp⟩

theorem goodState_restart (s : SchedulerState) (hs : GoodState s) (t : Int) :
    GoodState (restoreScheduledNotifications (freshProcess s) t).2 := by
  cases hsto : s.storage with
  | none =>
      rw [restore_none (freshProcess s) t (by simp [freshProcess, hsto])]
      exact ⟨fun _ => by simp [freshProcess, hsto], by simp [freshProcess, hsto]⟩
  | some v =>
      cases v with
      | malformed => exact absurd hsto hs.2
      | record d m sa =>
          have hfs : (freshProcess s).storage = some (.record d m sa) := by
            simp [freshProcess, hsto]
          cases hp : parseDate d with
          | none =>
              rw [restore_record_invalid (freshProcess s) t d m sa hfs hp]
              exact ⟨fun _ => rfl, by simp⟩
          | some ft =>
              by_cases h : t < ft
              · rw [restore_record_future (freshProcess s) t d m sa ft hfs hp h]
                exact ⟨by simp, by simp [freshProcess, hsto]⟩
              · rw [restore_record_stale (freshProcess s) t d m sa ft hfs hp
                  (by omega)]
                exact ⟨fun _ => rfl, by simp⟩

/-- Every world reachable from an initial world through the scheduler's own
operations satisfies `GoodState`. -/
theorem reachable_goodState (w : World) (h : Reachable w) : GoodState w.st := by
  induction h with
  | init t0 => exact goodState_initial
  | step hr hstep ih =>
      cases hstep with
      | sched t dt msg ht => exact goodState_sched _ ih t dt msg
      | fire t tm ht harm hdue hnf => exact goodState_fire _ ih
      | cancelBtn t ht => exact goodState_cancel _ ih
      | restart t ht => exact goodState_restart _ ih t

/-- Claim C6: the cancel button clears everything when the timer field is
non-null — `clearTimeout` on the handle, the pending record nulled, the
persisted slot erased; when the timer field is null it is an error-free
no-op, and in every reachable such state the persisted slot is already empty,
so the no-op leaves no persisted record uncleaned. -/
theorem cancel_button_spec :
    (∀ s : SchedulerState, s.timer = none → cancelAll s = s) ∧
    (∀ (s : SchedulerState) (tm : ArmedTimer), s.timer = some tm →
      cancelAll s =
        { s with timer := none, nextNotificationTime := none,
                 storage := none }) ∧
    (∀ w : World, Reachable w → w.st.timer = none → w.st.storage = none) := by
  refine ⟨?_, ?_, ?_⟩
  · intro s h
    simp [cancelAll, h]
  · intro s tm h
    simp [cancelAll, h]
  · intro w hw ht
    exact (reachable_goodState w hw).1 ht

/-- Witness for C6: cancel is the identity on a timer-less state, clears an
armed state completely, and the initial world (reachable by definition) has
an empty slot alongside its null timer. -/
theorem cancel_button_spec_witness :
    cancelAll ⟨none, some (some 3), none, []⟩ =
      ⟨none, some (some 3), none, []⟩ ∧
    cancelAll
        ⟨some { fireTime := 4, message := "z", clearsStorage := false,
                fired := false },
         some (some 4), some (.record (.iso 4) "z" (.iso 0)), []⟩ =
      { (⟨some { fireTime := 4, message := "z", clearsStorage := false,
                 fired := false },
          some (some 4), some (.record (.iso 4) "z" (.iso 0)), []⟩ :
         SchedulerState) with
        timer := none, nextNotificationTime := none, storage := none } ∧
    (initialWorld 0).st.storage = none :=
  ⟨cancel_button_spec.1 ⟨none, some (some 3), none, []⟩ rfl,
   cancel_button_spec.2.1
     ⟨some { fireTime := 4, message := "z", clearsStorage := false,
             fired := false },
      some (some 4), some (.record (.iso 4) "z" (.iso 0)), []⟩
     { fireTime := 4, message := "z", clearsStorage := false, fired := false }
     rfl,
   cancel_button_spec.2.2 (initialWorld 0) (Reachable.init 0) rfl⟩

/-- Claim C9: a reminder never fires twice across restarts. A successful
`schedule` at `now` for `fireAt` arms a trigger due at `fireAt` whose firing
leaves the persisted record behind; but any later process restart runs
`restore()` at a time `tr` no earlier than the fire time `tf`, which itself is
no earlier than `fireAt`, so the leftover record's `fireAt` is at or before
`tr`: `restore` erases it as stale and arms no second trigger. -/
theorem no_refire_across_restart (s : SchedulerState)
    (now fireAt tf tr : Int) (msg : String) (h1 : now < fireAt)
    (h2 : fireAt ≤ tf) (h3 : tf ≤ tr) :
    fireAt ≤ tr ∧
    restoreScheduledNotifications
        (freshProcess
          (fireTimer (scheduleNotification s now (some fireAt) msg).2.2)) tr =
      (.erasedStale, ⟨none, none, none, []⟩) := by
  refine ⟨by omega, ?_⟩
  rw [scheduleNotification_future s now fireAt msg h1]
  have hfp :
      freshProcess
        (fireTimer
          { s with
            nextNotificationTime := some (some fireAt),
            timer := some
              { fireTime := fireAt, message := msg, clearsStorage := false,
                fired := false },
            storage := some (.record (.iso fireAt) msg (.iso now)) }) =
      ⟨none, none, some (.record (.iso fireAt) msg (.iso now)), []⟩ := by
    simp [fireTimer, freshProcess]
  rw [hfp]
  rw [restore_record_stale
    ⟨none, none, some (.record (.iso fireAt) msg (.iso now)), []⟩ tr
    (.iso fireAt) msg (.iso now) fireAt rfl rfl (by omega)]

/-- Witness for C9: schedule at `now = 0` for `fireAt = 5`, fire at `tf = 5`,
restart and restore at `tr = 10`: the leftover record is erased as stale. -/
theorem no_refire_across_restart_witness :
    (0 : Int) < 5 ∧ (5 : Int) ≤ 5 ∧ (5 : Int) ≤ 10 ∧
    ((5 : Int) ≤ 10 ∧
     restoreScheduledNotifications
         (freshProcess
           (fireTimer
             (scheduleNotification ⟨none, none, none, []⟩ 0 (some 5)
               "m").2.2)) 10 =
       (.erasedStale, ⟨none, none, none, []⟩)) :=
  ⟨by decide, by decide, by decide,
   no_refire_across_restart ⟨none, none, none, []⟩ 0 5 5 10 "m" (by decide)
     (by decide) (by decide)⟩

end TimeNotifier
